import Mathlib

/-!
Verification of the OpenTTD Game Coordinator / STUN networking core.

This file gives a shallow embedding, in Lean 4, of the code under
`src/src/network/` (most importantly `network_coordinator.cpp`,
`network_stun.cpp`, `core/tcp_connect.cpp`, `core/game_info.cpp` and
`network_gamelist.cpp`), and proves or refutes the behavioural claims of
the natural-language specification.

The packet layer (`core/packet.cpp`) is not part of the analysed sources and
the specification explicitly treats it as an opaque read/write
primitive-typed buffer; a packet payload is therefore modelled as a list of
typed wire atoms (`WireAtom`), with the documented narrowing (`% 2 ^ 8`,
`% 2 ^ 16`, `% 2 ^ 32`) applied at the write boundary and NUL-terminated
string truncation applied at the read boundary.
-/

namespace OpenTTD

/-- One primitive value written to / read from a packet buffer. -/
inductive WireAtom where
  | u8 (v : Nat)
  | u16 (v : Nat)
  | u32 (v : Nat)
  | bool (v : Bool)
  | str (s : String)
  deriving DecidableEq, Repr

/-- Version of the game-info wire format; `game_info.h` documents the layout
as "Game Info Protocol v5". -/
def NETWORK_GAME_INFO_VERSION : Nat := 5

/-- Modelled from the spec: `config.h` is absent from the analysed sources;
string fields are NUL-terminated up to an implementation-fixed maximum
length.  The concrete bound for the join-key buffer. -/
def NETWORK_JOIN_KEY_LENGTH : Nat := 16

/-- Modelled from the spec: fixed maximum length of the server-name buffer
(`config.h` is absent from the analysed sources). -/
def NETWORK_NAME_LENGTH : Nat := 80

/-- Modelled from the spec: fixed maximum length of the revision buffer
(`config.h` is absent from the analysed sources). -/
def NETWORK_REVISION_LENGTH : Nat := 33

/-- Modelled from the spec: fixed maximum length of a GRF-name buffer
(`config.h` is absent from the analysed sources). -/
def NETWORK_GRF_NAME_LENGTH : Nat := 80

/-- Modelled from the spec: fixed maximum length of a connection token
(`config.h` is absent from the analysed sources). -/
def NETWORK_TOKEN_LENGTH : Nat := 40

/-- Modelled from the spec: fixed maximum length of a hostname:port string
(`config.h` is absent from the analysed sources). -/
def NETWORK_HOSTNAME_PORT_LENGTH : Nat := 200

/-- Modelled from the spec: the Game Coordinator protocol version constant
(`config.h` is absent from the analysed sources). -/
def NETWORK_COORDINATOR_VERSION : Nat := 1

/-- Number of landscape types; `game_info.h` documents
"Type of map (0 = temperate, 1 = arctic, 2 = desert, 3 = toyland)". -/
def NETWORK_NUM_LANDSCAPES : Nat := 4

/-- Modelled from the spec: `ConvertYMDToDate(MAX_YEAR, 11, 31)`; the date
helpers are outside the analysed sources.  Only the existence of an upper
clamp bound matters for the theorems below, not its exact value. -/
def MAX_DATE : Nat := 1826212865

/-- Game type sent on REGISTER; `tcp_coordinator.h` documents
"Type of game (0 = friends-only, 1 = public)". -/
def SERVER_GAME_TYPE_PUBLIC : Nat := 1

/-- Modelled from the spec: the compiled-in Coordinator endpoint host
(`config.h` is absent from the analysed sources). -/
def NETWORK_COORDINATOR_SERVER_HOST : String := "coordinator.openttd.org"

/-- Modelled from the spec: the compiled-in Coordinator endpoint port
(`config.h` is absent from the analysed sources). -/
def NETWORK_COORDINATOR_SERVER_PORT : Nat := 3976

/-- Modelled from the spec: the compiled-in STUN endpoint host
(`config.h` is absent from the analysed sources). -/
def NETWORK_STUN_SERVER_HOST : String := "stun.openttd.org"

/-- Modelled from the spec: the compiled-in STUN endpoint port
(`config.h` is absent from the analysed sources). -/
def NETWORK_STUN_SERVER_PORT : Nat := 3975

/-- Address family constants as used by the OS socket layer. -/
def AF_UNSPEC : Nat := 0

/-- IPv4 address family. -/
def AF_INET : Nat := 2

/-- IPv6 address family. -/
def AF_INET6 : Nat := 10

/-- The games-info struct of `game_info.h` (`NetworkGameInfo`, flattened with
its base `NetworkServerGameInfo`).  Fixed-size `char` buffers become
`String`s; the numeric field types (`byte`, `uint16`, `Date`) become `Nat`
with the width enforced at the packet-write boundary. -/
structure NetworkGameInfo where
  join_key : String
  clients_on : Nat
  grfconfig : List (Nat × List Nat × String × Bool)
  start_date : Nat
  game_date : Nat
  map_width : Nat
  map_height : Nat
  server_name : String
  server_revision : String
  dedicated : Bool
  version_compatible : Bool
  compatible : Bool
  use_password : Bool
  game_info_version : Nat
  server_lang : Nat
  clients_max : Nat
  companies_on : Nat
  companies_max : Nat
  spectators_on : Nat
  spectators_max : Nat
  map_set : Nat
  deriving DecidableEq, Repr

/-- A GRF entry in `NetworkGameInfo.grfconfig`: GRF id. -/
def grfId (g : Nat × List Nat × String × Bool) : Nat := g.1

/-- A GRF entry in `NetworkGameInfo.grfconfig`: MD5 checksum bytes. -/
def grfMd5 (g : Nat × List Nat × String × Bool) : List Nat := g.2.1

/-- A GRF entry in `NetworkGameInfo.grfconfig`: GRF name. -/
def grfName (g : Nat × List Nat × String × Bool) : String := g.2.2.1

/-- A GRF entry in `NetworkGameInfo.grfconfig`: the `GCF_STATIC` flag bit. -/
def grfStatic (g : Nat × List Nat × String × Bool) : Bool := g.2.2.2

/-- Embedding of `SendGRFIdentifier` (game_info.cpp): a `uint32` GRF id,
the 16 bytes of the MD5 checksum (`sizeof(grf->md5sum)` is 16), and the
GRF name as a string. -/
def SendGRFIdentifier (g : Nat × List Nat × String × Bool) : List WireAtom :=
  WireAtom.u32 (grfId g % 2 ^ 32)
    :: (List.range 16).map (fun j => WireAtom.u8 ((grfMd5 g).getD j 0 % 2 ^ 8))
    ++ [WireAtom.str (grfName g)]

/-- Embedding of `SendNetworkGameInfo` (game_info.cpp): version, join key,
count of non-static GRFs followed by their identifiers, the two dates,
the six one-byte counters, the two strings, the two flags and the map
description, in exactly the order of the source. -/
def SendNetworkGameInfo (info : NetworkGameInfo) : List WireAtom :=
  let grfs := info.grfconfig.filter (fun g => !grfStatic g)
  WireAtom.u8 (NETWORK_GAME_INFO_VERSION % 2 ^ 8)
    :: WireAtom.str info.join_key
    :: WireAtom.u8 (grfs.length % 2 ^ 8)
    :: ((grfs.map SendGRFIdentifier).flatten
  ++ [WireAtom.u32 (info.game_date % 2 ^ 32),
      WireAtom.u32 (info.start_date % 2 ^ 32),
      WireAtom.u8 (info.companies_max % 2 ^ 8),
      WireAtom.u8 (info.companies_on % 2 ^ 8),
      WireAtom.u8 (info.clients_max % 2 ^ 8),
      WireAtom.u8 (info.clients_on % 2 ^ 8),
      WireAtom.u8 (info.spectators_max % 2 ^ 8),
      WireAtom.u8 (info.spectators_on % 2 ^ 8),
      WireAtom.str info.server_name,
      WireAtom.str info.server_revision,
      WireAtom.bool info.use_password,
      WireAtom.bool info.dedicated,
      WireAtom.u16 (info.map_width % 2 ^ 16),
      WireAtom.u16 (info.map_height % 2 ^ 16),
      WireAtom.u8 (info.map_set % 2 ^ 8)])

/-- Read a `uint8` from the buffer (`Packet::Recv_uint8`). -/
def recvU8 : List WireAtom → Option (Nat × List WireAtom)
  | WireAtom.u8 v :: rest => some (v, rest)
  | _ => none

/-- Read a `uint16` from the buffer (`Packet::Recv_uint16`). -/
def recvU16 : List WireAtom → Option (Nat × List WireAtom)
  | WireAtom.u16 v :: rest => some (v, rest)
  | _ => none

/-- Read a `uint32` from the buffer (`Packet::Recv_uint32`). -/
def recvU32 : List WireAtom → Option (Nat × List WireAtom)
  | WireAtom.u32 v :: rest => some (v, rest)
  | _ => none

/-- Read a `bool` from the buffer (`Packet::Recv_bool`). -/
def recvBool : List WireAtom → Option (Bool × List WireAtom)
  | WireAtom.bool v :: rest => some (v, rest)
  | _ => none

/-- Modelled from the spec: `Packet::Recv_string(buf, size)` reads a
NUL-terminated string and stores at most `size - 1` characters, i.e. the
value is truncated at the fixed buffer length (`packet.cpp` is absent from
the analysed sources). -/
def recvString (size : Nat) : List WireAtom → Option (String × List WireAtom)
  | WireAtom.str s :: rest => some (s.take (size - 1), rest)
  | _ => none

/-- Read `n` raw bytes from the buffer (the MD5 loop of
`ReceiveGRFIdentifier`). -/
def recvBytes : Nat → List WireAtom → Option (List Nat × List WireAtom)
  | 0, l => some ([], l)
  | n + 1, WireAtom.u8 v :: rest =>
      match recvBytes n rest with
      | some (bs, l) => some (v :: bs, l)
      | none => none
  | _ + 1, _ => none

/-- Embedding of `ReceiveGRFIdentifier` (game_info.cpp): GRF id, 16 MD5
bytes, and the GRF name truncated at `NETWORK_GRF_NAME_LENGTH`. -/
def ReceiveGRFIdentifier (l : List WireAtom) :
    Option ((Nat × List Nat × String × Bool) × List WireAtom) :=
  match recvU32 l with
  | none => none
  | some (id, l) =>
    match recvBytes 16 l with
    | none => none
    | some (md5, l) =>
      match recvString NETWORK_GRF_NAME_LENGTH l with
      | none => none
      | some (name, l) => some ((id, md5, name, false), l)

/-- The GRF-reading loop of `ReceiveNetworkGameInfo`.  The name resolution
done by `HandleIncomingNetworkGameInfoGRFConfig` via `FindGRFConfig` is an
external collaborator; the received identifier and name are kept as read. -/
def receiveGRFList : Nat → List WireAtom →
    Option (List (Nat × List Nat × String × Bool) × List WireAtom)
  | 0, l => some ([], l)
  | n + 1, l =>
    match ReceiveGRFIdentifier l with
    | none => none
    | some (g, l) =>
      match receiveGRFList n l with
      | none => none
      | some (gs, l) => some (g :: gs, l)

/-- The `Clamp` applied to the received dates, specialised to the
non-negative range used in `ReceiveNetworkGameInfo`. -/
def clampDate (v : Nat) : Nat := min v MAX_DATE

/-- Embedding of `ReceiveNetworkGameInfo` (game_info.cpp).  The struct being
filled is passed in as `info0` (the out-parameter of the source); on a
version mismatch the source returns early with only `game_info_version`
assigned.  `none` models reading a field of the wrong primitive type. -/
def ReceiveNetworkGameInfo (l : List WireAtom) (info0 : NetworkGameInfo) :
    Option (NetworkGameInfo × List WireAtom) :=
  match recvU8 l with
  | none => none
  | some (version, l) =>
    if version ≠ NETWORK_GAME_INFO_VERSION then
      some ({ info0 with game_info_version := version }, l)
    else
      match recvString NETWORK_JOIN_KEY_LENGTH l with
      | none => none
      | some (join_key, l) =>
        match recvU8 l with
        | none => none
        | some (newgrf_count, l) =>
          match receiveGRFList newgrf_count l with
          | none => none
          | some (grfs, l) =>
            match recvU32 l with
            | none => none
            | some (game_date, l) =>
              match recvU32 l with
              | none => none
              | some (start_date, l) =>
                match recvU8 l with
                | none => none
                | some (companies_max, l) =>
                  match recvU8 l with
                  | none => none
                  | some (companies_on, l) =>
                    match recvU8 l with
                    | none => none
                    | some (clients_max, l) =>
                      match recvU8 l with
                      | none => none
                      | some (clients_on, l) =>
                        match recvU8 l with
                        | none => none
                        | some (spectators_max, l) =>
                          match recvU8 l with
                          | none => none
                          | some (spectators_on, l) =>
                            match recvString NETWORK_NAME_LENGTH l with
                            | none => none
                            | some (server_name, l) =>
                              match recvString NETWORK_REVISION_LENGTH l with
                              | none => none
                              | some (server_revision, l) =>
                                match recvBool l with
                                | none => none
                                | some (use_password, l) =>
                                  match recvBool l with
                                  | none => none
                                  | some (dedicated, l) =>
                                    match recvU16 l with
                                    | none => none
                                    | some (map_width, l) =>
                                      match recvU16 l with
                                      | none => none
                                      | some (map_height, l) =>
                                        match recvU8 l with
                                        | none => none
                                        | some (map_set, l) =>
                                          some
                                            ({ info0 with
                                              game_info_version := version
                                              join_key := join_key
                                              grfconfig := grfs
                                              game_date := clampDate game_date
                                              start_date := clampDate start_date
                                              companies_max := companies_max
                                              companies_on := companies_on
                                              clients_max := clients_max
                                              clients_on := clients_on
                                              spectators_max := spectators_max
                                              spectators_on := spectators_on
                                              server_name := server_name
                                              server_revision := server_revision
                                              use_password := use_password
                                              dedicated := dedicated
                                              map_width := map_width
                                              map_height := map_height
                                              map_set :=
                                                if NETWORK_NUM_LANDSCAPES ≤ map_set
                                                then 0 else map_set
                                              version_compatible := false
                                              compatible := false
                                              server_lang := 0 }, l)

/-! Association lists model the `std::map` members of
`ClientNetworkCoordinatorSocketHandler` (`connecter_pre`, `connecter`,
`stun_handlers`); a `std::map` holds at most one entry per key, which the
theorems track through a `Nodup` hypothesis on the key column where it
matters. -/

/-- Lookup by key (`std::map::find`). -/
def alookup {K V : Type} [DecidableEq K] : List (K × V) → K → Option V
  | [], _ => none
  | (k, v) :: rest, key => if k = key then some v else alookup rest key

/-- Keyed assignment (`std::map::operator[] = v`): replace the existing
entry or append a new one. -/
def ainsert {K V : Type} [DecidableEq K] : List (K × V) → K → V → List (K × V)
  | [], key, v => [(key, v)]
  | (k, w) :: rest, key, v =>
      if k = key then (k, v) :: rest else (k, w) :: ainsert rest key v

/-- Keyed removal (`std::map::erase`), removing the first entry for the
key (a `std::map` has at most one). -/
def aerase {K V : Type} [DecidableEq K] : List (K × V) → K → List (K × V)
  | [], _ => []
  | (k, v) :: rest, key => if k = key then rest else (k, v) :: aerase rest key

/-- Connection classification as detected by the Game Coordinator
(`ConnectionType` in tcp_coordinator.h); the source stores it as a plain
enum value. -/
def CONNECTION_TYPE_UNKNOWN : Nat := 0

/-- The Game Coordinator found no way to connect to the server. -/
def CONNECTION_TYPE_ISOLATED : Nat := 1

/-- The Game Coordinator can connect to the server directly. -/
def CONNECTION_TYPE_DIRECT : Nat := 2

/-- The Game Coordinator can reach the server via STUN. -/
def CONNECTION_TYPE_STUN : Nat := 3

/-- Packet-type tags, in the declaration order of `PacketCoordinatorType`
(tcp_coordinator.h). -/
def PACKET_COORDINATOR_CLIENT_REGISTER : Nat := 0

/-- REGISTER_ACK packet-type tag. -/
def PACKET_COORDINATOR_SERVER_REGISTER_ACK : Nat := 1

/-- UPDATE packet-type tag. -/
def PACKET_COORDINATOR_CLIENT_UPDATE : Nat := 2

/-- Client LISTING request packet-type tag. -/
def PACKET_COORDINATOR_CLIENT_LISTING : Nat := 3

/-- Server LISTING reply packet-type tag. -/
def PACKET_COORDINATOR_SERVER_LISTING : Nat := 4

/-- CONNECT packet-type tag. -/
def PACKET_COORDINATOR_CLIENT_CONNECT : Nat := 5

/-- CONNECTING packet-type tag. -/
def PACKET_COORDINATOR_SERVER_CONNECTING : Nat := 6

/-- Client CONNECT_FAILED (echo) packet-type tag. -/
def PACKET_COORDINATOR_CLIENT_CONNECT_FAILED : Nat := 7

/-- Server CONNECT_FAILED packet-type tag. -/
def PACKET_COORDINATOR_SERVER_CONNECT_FAILED : Nat := 8

/-- DIRECT_CONNECT packet-type tag. -/
def PACKET_COORDINATOR_SERVER_DIRECT_CONNECT : Nat := 9

/-- STUN_REQUEST packet-type tag. -/
def PACKET_COORDINATOR_SERVER_STUN_REQUEST : Nat := 10

/-- STUN_CONNECT packet-type tag. -/
def PACKET_COORDINATOR_SERVER_STUN_CONNECT : Nat := 11

/-- Modelled from the spec: the single STUN request packet type
(`tcp_stun.h` is absent from the analysed sources). -/
def PACKET_STUN_CLIENT_STUN : Nat := 0

/-- A packet queued for sending: the one-byte type tag and the payload. -/
structure PacketOut where
  ty : Nat
  data : List WireAtom
  deriving DecidableEq, Repr

/-- One `ClientNetworkStunSocketHandler` probe (network_stun.h): the local
address recorded by `getsockname` (abstracted to an identifier), whether
the OS socket is currently open, and whether `CloseConnection` has marked
the connection closed. -/
structure StunHandler where
  local_addr : Nat
  sockValid : Bool
  closed : Bool
  deriving DecidableEq, Repr

/-- Modelled from the spec: `NetworkTCPSocketHandler::CloseConnection`
(tcp.cpp, absent from the analysed sources) marks the connection closed
without closing the OS socket; the call site in
`Receive_SERVER_STUN_CONNECT` documents this as "we now mark the
connection as close, but we do not really close the socket yet". -/
def StunHandler.CloseConnection (h : StunHandler) : StunHandler :=
  { h with closed := true }

/-- Embedding of `NetworkStunSocketHandler::Close` (tcp_stun.cpp):
`CloseConnection` followed by closing the socket. -/
def StunHandler.Close (h : StunHandler) : StunHandler :=
  { h with closed := true, sockValid := false }

/-- Observable side effects of the coordinator-client operations, in
program order: results delivered to `TCPServerConnecter`s (`none` models
`INVALID_SOCKET`), packets queued on the Coordinator session, new
connection attempts, and STUN-socket transitions. -/
inductive Effect where
  | setResult (connecter : Nat) (sock : Option Nat)
  | sendPacket (p : PacketOut)
  | closeSocket
  | newDirectConnecter (host : String) (port : Nat) (token : String)
  | newReuseStunConnecter (host : String) (port : Nat) (bindAddr : Nat)
      (token : String) (family : Nat)
  | newStunConnecter (host : String) (port : Nat)
  | stunSendPacket (p : PacketOut)
  | stunMarkClosed (token : String) (family : Nat)
  | stunSocketClosed (token : String) (family : Nat)
  | newCoordinatorConnecter (host : String) (port : Nat)
  deriving DecidableEq, Repr

/-- The mutable state of `ClientNetworkCoordinatorSocketHandler` together
with the globals it manipulates: the session socket, the `connecting`
flag, `_network_game_info.join_key`, `_network_server_connection_type`,
the two pending-join tables and the per-token STUN-handler tables. -/
structure CoordState where
  sockValid : Bool
  connecting : Bool
  join_key : String
  connection_type : Nat
  connecter_pre : List (String × Nat)
  connecter : List (String × Nat)
  stun_handlers : List (String × List (Nat × StunHandler))
  deriving DecidableEq, Repr

/-- Result of a `Receive_` handler: the successor state, the effects in
program order, and the boolean the handler returns; `assertFailed` models
a failing `assert()` in the source. -/
inductive HandlerResult where
  | ok (s : CoordState) (effects : List Effect) (cont : Bool)
  | assertFailed
  deriving DecidableEq, Repr

/-- Embedding of `ClientNetworkCoordinatorSocketHandler::CloseConnection`
(network_coordinator.cpp): close the socket if it is open, clear the
recorded join key, reset the connection type to unknown, and deliver an
`INVALID_SOCKET` result to every pending connecter in the token table and
then in the join-key table.  The source neither clears the two connecter
tables nor touches `stun_handlers`. -/
def CloseConnection (s : CoordState) : CoordState × List Effect :=
  ({ s with
      sockValid := false
      join_key := ""
      connection_type := CONNECTION_TYPE_UNKNOWN },
   (if s.sockValid then [Effect.closeSocket] else [])
     ++ s.connecter.map (fun kv => Effect.setResult kv.2 none)
     ++ s.connecter_pre.map (fun kv => Effect.setResult kv.2 none))

/-- Embedding of `ClientNetworkCoordinatorSocketHandler::Connect`
(network_coordinator.cpp): a no-op when already connected or connecting,
otherwise start a `NetworkCoordinatorConnecter` towards the fixed
Coordinator endpoint.  `Reopen` of the underlying socket handler is part
of the absent base class and has no observable counterpart here. -/
def Connect (s : CoordState) : CoordState × List Effect :=
  if s.sockValid || s.connecting then (s, [])
  else
    ({ s with connecting := true },
     [Effect.newCoordinatorConnecter NETWORK_COORDINATOR_SERVER_HOST
        NETWORK_COORDINATOR_SERVER_PORT])

/-- Embedding of `ClientNetworkCoordinatorSocketHandler::ConnectToServer`
(network_coordinator.cpp): a second attempt for a join key still pending
in the pre-token table is immediately failed; otherwise the connecter is
stored under the join key, the session is (re)opened if needed, and a
CONNECT packet is queued. -/
def ConnectToServer (s : CoordState) (join_key : String) (connecter : Nat) :
    CoordState × List Effect :=
  match alookup s.connecter_pre join_key with
  | some _ => (s, [Effect.setResult connecter none])
  | none =>
    let s1 := { s with connecter_pre := ainsert s.connecter_pre join_key connecter }
    let c := Connect s1
    (c.1, c.2 ++
      [Effect.sendPacket
        ⟨PACKET_COORDINATOR_CLIENT_CONNECT,
         [WireAtom.u8 (NETWORK_COORDINATOR_VERSION % 2 ^ 8),
          WireAtom.str join_key]⟩])

/-- Embedding of `ClientNetworkCoordinatorSocketHandler::Register`
(network_coordinator.cpp): clear the join key and connection type,
(re)open the session, and queue a REGISTER packet containing the protocol
version, the public game type, the local server port and the OpenTTD
revision string (`_openttd_revision` and the configured port are external
values, passed as arguments). -/
def Register (s : CoordState) (server_port : Nat) (revision : String) :
    CoordState × List Effect :=
  let s1 := { s with join_key := "", connection_type := CONNECTION_TYPE_UNKNOWN }
  let c := Connect s1
  (c.1, c.2 ++
    [Effect.sendPacket
      ⟨PACKET_COORDINATOR_CLIENT_REGISTER,
       [WireAtom.u8 (NETWORK_COORDINATOR_VERSION % 2 ^ 8),
        WireAtom.u8 (SERVER_GAME_TYPE_PUBLIC % 2 ^ 8),
        WireAtom.u16 (server_port % 2 ^ 16),
        WireAtom.str revision]⟩])

/-- Embedding of `ClientNetworkCoordinatorSocketHandler::ConnectFailure`
(network_coordinator.cpp): queue a CONNECT_FAILED echo for the token; the
associated connecter is deliberately not closed. -/
def ConnectFailure (s : CoordState) (token : String) : CoordState × List Effect :=
  (s,
   [Effect.sendPacket
     ⟨PACKET_COORDINATOR_CLIENT_CONNECT_FAILED,
      [WireAtom.u8 (NETWORK_COORDINATOR_VERSION % 2 ^ 8),
       WireAtom.str token]⟩])

/-- Embedding of `ClientNetworkCoordinatorSocketHandler::ConnectSuccess`
(network_coordinator.cpp) in the client role (`_network_server` false):
look the connecter up by token (the source asserts it is present, returned
here as `none`), deliver the connected socket and drop the entry. -/
def ConnectSuccess (s : CoordState) (token : String) (sock : Nat) :
    Option (CoordState × List Effect) :=
  match alookup s.connecter token with
  | none => none
  | some c =>
      some ({ s with connecter := aerase s.connecter token },
            [Effect.setResult c (some sock)])

/-- Embedding of `ClientNetworkCoordinatorSocketHandler::CloseStunHandler`
(network_coordinator.cpp): with `AF_UNSPEC`, close every probe for the
token and drop the token entry; with a concrete family, close and drop
just that family's probe.  Unknown tokens/families are ignored. -/
def CloseStunHandler (s : CoordState) (token : String) (family : Nat) :
    CoordState × List Effect :=
  match alookup s.stun_handlers token with
  | none => (s, [])
  | some fams =>
    if family = AF_UNSPEC then
      ({ s with stun_handlers := aerase s.stun_handlers token },
       fams.map (fun kv => Effect.stunSocketClosed token kv.1))
    else
      match alookup fams family with
      | none => (s, [])
      | some _ =>
        ({ s with stun_handlers := ainsert s.stun_handlers token (aerase fams family) },
         [Effect.stunSocketClosed token family])

/-- Embedding of `ClientNetworkStunSocketHandler::Stun` (network_stun.cpp):
create a fresh handler, start a `NetworkStunConnecter` towards the fixed
STUN endpoint (`Connect(family)` carries a TODO and does not use the
family), and queue the single request frame of protocol version, token
and family on the new handler.  The fresh handler has no socket and no
recorded local address yet. -/
def Stun (token : String) (family : Nat) : StunHandler × List Effect :=
  (⟨0, false, false⟩,
   [Effect.newStunConnecter NETWORK_STUN_SERVER_HOST NETWORK_STUN_SERVER_PORT,
    Effect.stunSendPacket
      ⟨PACKET_STUN_CLIENT_STUN,
       [WireAtom.u8 (NETWORK_COORDINATOR_VERSION % 2 ^ 8),
        WireAtom.str token,
        WireAtom.u8 (family % 2 ^ 8)]⟩])

/-- Embedding of
`ClientNetworkCoordinatorSocketHandler::Receive_SERVER_CONNECTING`
(network_coordinator.cpp).  The source finds the connecter by join key,
asserts it was found, erases the join-key entry and stores the connecter
under the token.  CAUTION: the source erases `connecter_it` from
`connecter_pre` and only afterwards reads `connecter_it->second`; erasing
invalidates the iterator, so that read is a use after free (undefined
behaviour in C++).  This embedding captures the intended, defined-behaviour
reading in which the connecter value is taken before the erase — see the
analysis of claim C1. -/
def Receive_SERVER_CONNECTING (s : CoordState) (token join_key : String) :
    HandlerResult :=
  match alookup s.connecter_pre join_key with
  | none => HandlerResult.assertFailed
  | some c =>
      HandlerResult.ok
        { s with
            connecter_pre := aerase s.connecter_pre join_key
            connecter := ainsert s.connecter token c }
        [] true

/-- Embedding of
`ClientNetworkCoordinatorSocketHandler::Receive_SERVER_CONNECT_FAILED`
(network_coordinator.cpp): a known token gets an `INVALID_SOCKET` result
and its entry dropped; an unknown token is silently ignored and the
handler still reports success. -/
def Receive_SERVER_CONNECT_FAILED (s : CoordState) (token : String) :
    HandlerResult :=
  match alookup s.connecter token with
  | none => HandlerResult.ok s [] true
  | some c =>
      HandlerResult.ok { s with connecter := aerase s.connecter token }
        [Effect.setResult c none] true

/-- Embedding of
`ClientNetworkCoordinatorSocketHandler::Receive_SERVER_DIRECT_CONNECT`
(network_coordinator.cpp): start a `NetworkDirectConnecter` to the given
host and port for the token. -/
def Receive_SERVER_DIRECT_CONNECT (s : CoordState) (token host : String)
    (port : Nat) : HandlerResult :=
  HandlerResult.ok s [Effect.newDirectConnecter host port token] true

/-- Embedding of
`ClientNetworkCoordinatorSocketHandler::Receive_SERVER_STUN_REQUEST`
(network_coordinator.cpp): open one STUN probe, for `AF_INET` only — the
`AF_INET6` line is commented out in the source behind a TODO — and store
it under `(token, AF_INET)`. -/
def Receive_SERVER_STUN_REQUEST (s : CoordState) (token : String) :
    HandlerResult :=
  let r := Stun token AF_INET
  HandlerResult.ok
    { s with
        stun_handlers :=
          ainsert s.stun_handlers token
            (ainsert ((alookup s.stun_handlers token).getD []) AF_INET r.1) }
    r.2 true

/-- Embedding of
`ClientNetworkCoordinatorSocketHandler::Receive_SERVER_STUN_CONNECT`
(network_coordinator.cpp): an unknown token or family means the
Coordinator and the client disagree on state, so the whole session is
closed and the handler returns failure.  For a known probe, the probe is
marked closed (deferred close, socket left open) and a
`NetworkReuseStunConnecter` bound to the probe's recorded local address is
started towards the peer. -/
def Receive_SERVER_STUN_CONNECT (s : CoordState) (token : String)
    (family : Nat) (host : String) (port : Nat) : HandlerResult :=
  match alookup s.stun_handlers token with
  | none =>
      let c := CloseConnection s
      HandlerResult.ok c.1 c.2 false
  | some fams =>
    match alookup fams family with
    | none =>
        let c := CloseConnection s
        HandlerResult.ok c.1 c.2 false
    | some h =>
        HandlerResult.ok
          { s with
              stun_handlers :=
                ainsert s.stun_handlers token
                  (ainsert fams family h.CloseConnection) }
          [Effect.stunMarkClosed token family,
           Effect.newReuseStunConnecter host port h.local_addr token family]
          true

/-- Embedding of `NetworkReuseStunConnecter::OnConnect`
(network_coordinator.cpp): close all STUN probes for the token, then
deliver the connected socket via `ConnectSuccess` (client role; `none`
models the failing assert of `ConnectSuccess` on an unknown token). -/
def ReuseStunOnConnect (s : CoordState) (token : String) (sock : Nat) :
    Option (CoordState × List Effect) :=
  let c := CloseStunHandler s token AF_UNSPEC
  match ConnectSuccess c.1 token sock with
  | none => none
  | some r => some (r.1, c.2 ++ r.2)

/-- Embedding of `NetworkReuseStunConnecter::OnFailure`
(network_coordinator.cpp): close the one STUN probe the attempt belonged
to, then echo CONNECT_FAILED to the Coordinator; the pending join is left
alone awaiting further instructions. -/
def ReuseStunOnFailure (s : CoordState) (token : String) (family : Nat) :
    CoordState × List Effect :=
  let c := CloseStunHandler s token family
  let r := ConnectFailure c.1 token
  (r.1, c.2 ++ r.2)

/-! Generic facts about the association-list operations. -/

theorem alookup_eq_none {K V : Type} [DecidableEq K] (l : List (K × V)) (k : K)
    (h : k ∉ l.map Prod.fst) : alookup l k = none := by
  induction l with
  | nil => rfl
  | cons hd tl ih =>
    obtain ⟨k0, v0⟩ := hd
    simp only [List.map_cons, List.mem_cons] at h
    push_neg at h
    simp only [alookup]
    rw [if_neg (Ne.symm h.1)]
    exact ih h.2

theorem alookup_ainsert_self {K V : Type} [DecidableEq K] (l : List (K × V))
    (k : K) (v : V) : alookup (ainsert l k v) k = some v := by
  induction l with
  | nil => simp [ainsert, alookup]
  | cons hd tl ih =>
    obtain ⟨k0, v0⟩ := hd
    simp only [ainsert]
    split
    · rename_i h0
      simp [alookup, h0]
    · rename_i h0
      simp only [alookup]
      rw [if_neg h0]
      exact ih

theorem alookup_ainsert_ne {K V : Type} [DecidableEq K] (l : List (K × V))
    (k k' : K) (v : V) (h : k' ≠ k) :
    alookup (ainsert l k v) k' = alookup l k' := by
  induction l with
  | nil => simp [ainsert, alookup, Ne.symm h]
  | cons hd tl ih =>
    obtain ⟨k0, v0⟩ := hd
    simp only [ainsert]
    split
    · rename_i h0
      subst h0
      simp only [alookup]
      rw [if_neg (Ne.symm h), if_neg (Ne.symm h)]
    · simp only [alookup, ih]

theorem alookup_aerase_self {K V : Type} [DecidableEq K] (l : List (K × V))
    (k : K) (hnd : (l.map Prod.fst).Nodup) : alookup (aerase l k) k = none := by
  induction l with
  | nil => rfl
  | cons hd tl ih =>
    obtain ⟨k0, v0⟩ := hd
    simp only [List.map_cons, List.nodup_cons] at hnd
    simp only [aerase]
    split
    · rename_i h0
      exact alookup_eq_none tl k (h0 ▸ hnd.1)
    · rename_i h0
      simp only [alookup]
      rw [if_neg h0]
      exact ih hnd.2

/-! Claim C1 — re-keying a pending join from join-key to token. -/

/-- C1: on the defined-behaviour reading of `Receive_SERVER_CONNECTING`
(connecter value taken before the erase; the source itself reads it through
an iterator that the preceding `erase` invalidated, which is undefined
behaviour), a pending join found under its join-key is moved to the token
table: afterwards the lookup by the old join-key fails and the lookup by
the new token returns the original connecter, so the entry is in exactly
one of the two keying tables. -/
theorem C1_connecting_rekey (s : CoordState) (token join_key : String) (c : Nat)
    (hnd : (s.connecter_pre.map Prod.fst).Nodup)
    (hfound : alookup s.connecter_pre join_key = some c) :
    Receive_SERVER_CONNECTING s token join_key =
      HandlerResult.ok
        { s with
            connecter_pre := aerase s.connecter_pre join_key
            connecter := ainsert s.connecter token c } [] true ∧
    alookup (aerase s.connecter_pre join_key) join_key = none ∧
    alookup (ainsert s.connecter token c) token = some c := by
  refine ⟨?_, alookup_aerase_self _ _ hnd, alookup_ainsert_self _ _ _⟩
  simp [Receive_SERVER_CONNECTING, hfound]

/-- C1 witness: the re-keying on a concrete one-entry state. -/
theorem C1_connecting_rekey_witness :
    Receive_SERVER_CONNECTING
        { sockValid := true, connecting := false, join_key := "",
          connection_type := 0, connecter_pre := [("ABCD1234", 7)],
          connecter := [], stun_handlers := [] } "T1" "ABCD1234" =
      HandlerResult.ok
        { sockValid := true, connecting := false, join_key := "",
          connection_type := 0, connecter_pre := [],
          connecter := [("T1", 7)], stun_handlers := [] } [] true := by
  have h := C1_connecting_rekey
    { sockValid := true, connecting := false, join_key := "",
      connection_type := 0, connecter_pre := [("ABCD1234", 7)],
      connecter := [], stun_handlers := [] } "T1" "ABCD1234" 7
    (by decide) (by decide)
  exact h.1

/-! Claim C2 — handling of packets referencing unknown state. -/

/-- A live session with no pending joins and no STUN probes. -/
def c2State : CoordState :=
  { sockValid := true, connecting := false, join_key := "",
    connection_type := 0, connecter_pre := [], connecter := [],
    stun_handlers := [] }

/-- C2 counterexample: a CONNECT_FAILED packet for an unknown token is
silently ignored — the state is unchanged, the session socket stays valid
and the handler reports success — contradicting the claim that every
inbound packet referencing an unknown token closes the whole Coordinator
session. -/
theorem C2_unknown_token_cex :
    Receive_SERVER_CONNECT_FAILED c2State "T1" =
      HandlerResult.ok c2State [] true ∧
    c2State.sockValid = true := ⟨rfl, rfl⟩

/-- C2 as amended: only STUN_CONNECT treats an unknown token or family as
protocol desynchronization and closes the whole session; CONNECT_FAILED
for an unknown token is silently ignored with success; CONNECTING for an
unknown join-key trips the source's `assert` instead of closing the
session. -/
theorem C2_desync_handling (s : CoordState) (token join_key : String)
    (family : Nat) (host : String) (port : Nat) :
    (alookup s.stun_handlers token = none →
      Receive_SERVER_STUN_CONNECT s token family host port =
        HandlerResult.ok (CloseConnection s).1 (CloseConnection s).2 false ∧
      (CloseConnection s).1.sockValid = false) ∧
    (∀ fams, alookup s.stun_handlers token = some fams →
      alookup fams family = none →
      Receive_SERVER_STUN_CONNECT s token family host port =
        HandlerResult.ok (CloseConnection s).1 (CloseConnection s).2 false) ∧
    (alookup s.connecter token = none →
      Receive_SERVER_CONNECT_FAILED s token = HandlerResult.ok s [] true) ∧
    (alookup s.connecter_pre join_key = none →
      Receive_SERVER_CONNECTING s token join_key = HandlerResult.assertFailed) := by
  refine ⟨?_, ?_, ?_, ?_⟩
  · intro h
    constructor
    · simp [Receive_SERVER_STUN_CONNECT, h]
    · rfl
  · intro fams htok hfam
    simp [Receive_SERVER_STUN_CONNECT, htok, hfam]
  · intro h
    simp [Receive_SERVER_CONNECT_FAILED, h]
  · intro h
    simp [Receive_SERVER_CONNECTING, h]

/-- C2 witness: the three behaviours at concrete inputs — STUN_CONNECT for
the unknown token "TX" closes the session, CONNECT_FAILED for "TX" is
ignored, CONNECTING for the unknown join-key "JK" hits the assert. -/
theorem C2_desync_handling_witness :
    Receive_SERVER_STUN_CONNECT c2State "TX" 2 "peer.example" 4000 =
      HandlerResult.ok (CloseConnection c2State).1 (CloseConnection c2State).2
        false ∧
    Receive_SERVER_CONNECT_FAILED c2State "TX" =
      HandlerResult.ok c2State [] true ∧
    Receive_SERVER_CONNECTING c2State "TX" "JK" = HandlerResult.assertFailed := by
  have h := C2_desync_handling c2State "TX" "JK" 2 "peer.example" 4000
  exact ⟨(h.1 (by decide)).1, h.2.2.1 (by decide), h.2.2.2 (by decide)⟩

/-! Claim C3 — teardown on Coordinator session close. -/

/-- A live session with one pending token-keyed join and one open STUN
probe. -/
def c3State : CoordState :=
  { sockValid := true, connecting := false, join_key := "KEY1",
    connection_type := CONNECTION_TYPE_DIRECT, connecter_pre := [],
    connecter := [("T1", 7)],
    stun_handlers := [("T1", [(2, ⟨5, true, false⟩)])] }

/-- C3 counterexample: `CloseConnection` on a state with an open STUN probe
leaves `stun_handlers` untouched and emits no STUN-closing effect — its
effects are exactly the socket close and the pending-join failure — so
outstanding STUN sessions are not force-failed or closed, contradicting
the claim. -/
theorem C3_stun_not_closed_cex :
    (CloseConnection c3State).1.stun_handlers =
      [("T1", [(2, ⟨5, true, false⟩)])] ∧
    (CloseConnection c3State).2 = [Effect.closeSocket, Effect.setResult 7 none] :=
  ⟨rfl, rfl⟩

/-- C3 as amended: `CloseConnection` resets the recorded join key to empty
and the connection type to unknown, delivers an invalid-socket result to
every pending join in both keying tables, but leaves the STUN-session
table untouched and closes no STUN socket. -/
theorem C3_close_teardown (s : CoordState) :
    (CloseConnection s).1.join_key = "" ∧
    (CloseConnection s).1.connection_type = CONNECTION_TYPE_UNKNOWN ∧
    (CloseConnection s).1.sockValid = false ∧
    (CloseConnection s).1.stun_handlers = s.stun_handlers ∧
    (∀ kv ∈ s.connecter, Effect.setResult kv.2 none ∈ (CloseConnection s).2) ∧
    (∀ kv ∈ s.connecter_pre, Effect.setResult kv.2 none ∈ (CloseConnection s).2) ∧
    (∀ t f, Effect.stunSocketClosed t f ∉ (CloseConnection s).2) ∧
    (∀ t f, Effect.stunMarkClosed t f ∉ (CloseConnection s).2) := by
  refine ⟨rfl, rfl, rfl, rfl, ?_, ?_, ?_, ?_⟩
  · intro kv hkv
    simp only [CloseConnection, List.mem_append, List.mem_map]
    exact Or.inl (Or.inr ⟨kv, hkv, rfl⟩)
  · intro kv hkv
    simp only [CloseConnection, List.mem_append, List.mem_map]
    exact Or.inr ⟨kv, hkv, rfl⟩
  · intro t f hmem
    simp only [CloseConnection, List.mem_append, List.mem_map] at hmem
    rcases hmem with (h | ⟨a, _, ha⟩) | ⟨a, _, ha⟩
    · revert h
      split <;> simp
    · exact absurd ha (by simp)
    · exact absurd ha (by simp)
  · intro t f hmem
    simp only [CloseConnection, List.mem_append, List.mem_map] at hmem
    rcases hmem with (h | ⟨a, _, ha⟩) | ⟨a, _, ha⟩
    · revert h
      split <;> simp
    · exact absurd ha (by simp)
    · exact absurd ha (by simp)

/-- C3 witness: on the concrete state, the join key is cleared and the
pending join receives the invalid-socket result. -/
theorem C3_close_teardown_witness :
    (CloseConnection c3State).1.join_key = "" ∧
    Effect.setResult 7 none ∈ (CloseConnection c3State).2 := by
  have h := C3_close_teardown c3State
  exact ⟨h.1, h.2.2.2.2.1 ("T1", 7) (by decide)⟩

/-! Claim C4 — STUN_CONNECT for a known (token, family). -/

/-- C4: for a known `(token, family)` pair, `Receive_SERVER_STUN_CONNECT`
first marks that family's probe closed without closing its socket (the
`sockValid` flag of the stored handler is untouched), then starts a
`NetworkReuseStunConnecter` to the peer bound to the probe's recorded
local address, and leaves every other family's probe for the token
unchanged; when that connecter's `OnConnect` fires, all STUN probes for
the token are closed and the connected socket is delivered to the pending
connecter. -/
theorem C4_stun_connect (s : CoordState) (token : String) (family : Nat)
    (host : String) (port : Nat) (fams : List (Nat × StunHandler))
    (h : StunHandler)
    (htok : alookup s.stun_handlers token = some fams)
    (hfam : alookup fams family = some h) :
    (Receive_SERVER_STUN_CONNECT s token family host port =
      HandlerResult.ok
        { s with
            stun_handlers :=
              ainsert s.stun_handlers token
                (ainsert fams family { h with closed := true }) }
        [Effect.stunMarkClosed token family,
         Effect.newReuseStunConnecter host port h.local_addr token family]
        true) ∧
    ({ h with closed := true } : StunHandler).sockValid = h.sockValid ∧
    (∀ f2, f2 ≠ family →
      alookup (ainsert fams family { h with closed := true }) f2 =
        alookup fams f2) ∧
    (∀ (s2 : CoordState) (fams2 : List (Nat × StunHandler)) (c sock : Nat),
      alookup s2.stun_handlers token = some fams2 →
      alookup s2.connecter token = some c →
      ReuseStunOnConnect s2 token sock =
        some ({ s2 with
                  stun_handlers := aerase s2.stun_handlers token
                  connecter := aerase s2.connecter token },
              fams2.map (fun kv => Effect.stunSocketClosed token kv.1)
                ++ [Effect.setResult c (some sock)])) := by
  refine ⟨?_, rfl, ?_, ?_⟩
  · simp [Receive_SERVER_STUN_CONNECT, htok, hfam, StunHandler.CloseConnection]
  · intro f2 hf2
    exact alookup_ainsert_ne fams family f2 _ hf2
  · intro s2 fams2 c sock htok2 hconn2
    simp [ReuseStunOnConnect, CloseStunHandler, htok2, ConnectSuccess, hconn2]

/-- C4 witness: the deferred close and the subsequent success delivery on
a concrete state holding one IPv4 probe (with its socket open) and the
pending join for token "T2". -/
theorem C4_stun_connect_witness :
    Receive_SERVER_STUN_CONNECT
        { sockValid := true, connecting := false, join_key := "",
          connection_type := 0, connecter_pre := [], connecter := [("T2", 9)],
          stun_handlers := [("T2", [(2, ⟨44, true, false⟩)])] }
        "T2" 2 "203.0.113.5" 3979 =
      HandlerResult.ok
        { sockValid := true, connecting := false, join_key := "",
          connection_type := 0, connecter_pre := [], connecter := [("T2", 9)],
          stun_handlers := [("T2", [(2, ⟨44, true, true⟩)])] }
        [Effect.stunMarkClosed "T2" 2,
         Effect.newReuseStunConnecter "203.0.113.5" 3979 44 "T2" 2] true ∧
    ReuseStunOnConnect
        { sockValid := true, connecting := false, join_key := "",
          connection_type := 0, connecter_pre := [], connecter := [("T2", 9)],
          stun_handlers := [("T2", [(2, ⟨44, true, true⟩)])] } "T2" 61 =
      some ({ sockValid := true, connecting := false, join_key := "",
              connection_type := 0, connecter_pre := [], connecter := [],
              stun_handlers := [] },
            [Effect.stunSocketClosed "T2" 2, Effect.setResult 9 (some 61)]) := by
  have h := C4_stun_connect
    { sockValid := true, connecting := false, join_key := "",
      connection_type := 0, connecter_pre := [], connecter := [("T2", 9)],
      stun_handlers := [("T2", [(2, ⟨44, true, false⟩)])] }
    "T2" 2 "203.0.113.5" 3979 [(2, ⟨44, true, false⟩)] ⟨44, true, false⟩
    (by decide) (by decide)
  refine ⟨h.1, ?_⟩
  have h2 := h.2.2.2
    { sockValid := true, connecting := false, join_key := "",
      connection_type := 0, connecter_pre := [], connecter := [("T2", 9)],
      stun_handlers := [("T2", [(2, ⟨44, true, true⟩)])] }
    [(2, ⟨44, true, true⟩)] 9 61 (by decide) (by decide)
  exact h2

/-! Claim C5 — probes opened on STUN_REQUEST. -/

/-- Stated from the claim C5 text (not from the source): the set of probe
families the claim asserts a STUN_REQUEST opens — IPv4 always, and IPv6
when the system supports IPv6. -/
def claimStunProbeFamilies (ipv6Supported : Bool) : List Nat :=
  if ipv6Supported then [AF_INET, AF_INET6] else [AF_INET]

/-- The families for which `Receive_SERVER_STUN_REQUEST` leaves a probe
stored under the given token. -/
def stunFamiliesAfterRequest (s : CoordState) (token : String) : List Nat :=
  match Receive_SERVER_STUN_REQUEST s token with
  | HandlerResult.ok s1 _ _ => ((alookup s1.stun_handlers token).getD []).map Prod.fst
  | HandlerResult.assertFailed => []

/-- A live session with no STUN probes yet. -/
def c5State : CoordState :=
  { sockValid := true, connecting := false, join_key := "",
    connection_type := 0, connecter_pre := [], connecter := [],
    stun_handlers := [] }

/-- C5 counterexample: on a fresh state, STUN_REQUEST("T2") opens a probe
for IPv4 only — the source's IPv6 line is commented out — so on a system
that supports IPv6 the probes opened differ from the claim's
one-per-supported-family reading. -/
theorem C5_ipv4_only_cex :
    stunFamiliesAfterRequest c5State "T2" = [AF_INET] ∧
    claimStunProbeFamilies true ≠ [AF_INET] := by
  exact ⟨rfl, by decide⟩

/-- C5 as amended: STUN_REQUEST(token) opens exactly one StunSession
probe, for IPv4 only (IPv6 probing is disabled in the source), stores it
under `(token, AF_INET)`, starts its connection to the fixed STUN endpoint
(the requested family is not forwarded to the connect), and queues the
single request frame of protocol version, token and family. -/
theorem C5_stun_request (s : CoordState) (token : String) :
    Receive_SERVER_STUN_REQUEST s token =
      HandlerResult.ok
        { s with
            stun_handlers :=
              ainsert s.stun_handlers token
                (ainsert ((alookup s.stun_handlers token).getD []) AF_INET
                  ⟨0, false, false⟩) }
        [Effect.newStunConnecter NETWORK_STUN_SERVER_HOST
            NETWORK_STUN_SERVER_PORT,
         Effect.stunSendPacket
           ⟨PACKET_STUN_CLIENT_STUN,
            [WireAtom.u8 (NETWORK_COORDINATOR_VERSION % 2 ^ 8),
             WireAtom.str token,
             WireAtom.u8 (AF_INET % 2 ^ 8)]⟩] true ∧
    alookup
        (ainsert ((alookup s.stun_handlers token).getD []) AF_INET
          ⟨0, false, false⟩) AF_INET = some ⟨0, false, false⟩ :=
  ⟨rfl, alookup_ainsert_self _ _ _⟩

/-! Claim C6 — contents of the REGISTER packet. -/

/-- Stated from the claim C6 text (not from the source): the REGISTER
payload the claim asserts — protocol version, game type, local port, then
the serialized game-info of the current server. -/
def claimRegisterPayload (server_port : Nat) (info : NetworkGameInfo) :
    List WireAtom :=
  WireAtom.u8 (NETWORK_COORDINATOR_VERSION % 2 ^ 8)
    :: WireAtom.u8 (SERVER_GAME_TYPE_PUBLIC % 2 ^ 8)
    :: WireAtom.u16 (server_port % 2 ^ 16)
    :: SendNetworkGameInfo info

/-- A game-info value with every field empty or zero. -/
def emptyGameInfo : NetworkGameInfo :=
  { join_key := "", clients_on := 0, grfconfig := [], start_date := 0,
    game_date := 0, map_width := 0, map_height := 0, server_name := "",
    server_revision := "", dedicated := false, version_compatible := false,
    compatible := false, use_password := false, game_info_version := 0,
    server_lang := 0, clients_max := 0, companies_on := 0, companies_max := 0,
    spectators_on := 0, spectators_max := 0, map_set := 0 }

/-- A live session used for the REGISTER counterexample. -/
def c6State : CoordState :=
  { sockValid := true, connecting := false, join_key := "",
    connection_type := 0, connecter_pre := [], connecter := [],
    stun_handlers := [] }

/-- C6 counterexample: the packet `Register` queues carries the OpenTTD
revision string as its fourth field, not a serialized game-info, so it
differs from the claim's payload even for the all-empty game-info of the
current server. -/
theorem C6_register_cex :
    (Register c6State 3979 "1.11.0-master").2 =
      [Effect.sendPacket
        ⟨PACKET_COORDINATOR_CLIENT_REGISTER,
         [WireAtom.u8 1, WireAtom.u8 1, WireAtom.u16 3979,
          WireAtom.str "1.11.0-master"]⟩] ∧
    (Register c6State 3979 "1.11.0-master").2 ≠
      [Effect.sendPacket
        ⟨PACKET_COORDINATOR_CLIENT_REGISTER,
         claimRegisterPayload 3979 emptyGameInfo⟩] := by
  exact ⟨rfl, by decide⟩

/-- C6 as amended: every REGISTER packet consists of, in this order, the
protocol version as u8, the public game type as u8, the server's local
port as u16, and the OpenTTD revision string (not a serialized
game-info); `Register` also clears the recorded join key and connection
type. -/
theorem C6_register_packet (s : CoordState) (server_port : Nat)
    (revision : String) :
    (∃ pre, (Register s server_port revision).2 = pre ++
      [Effect.sendPacket
        ⟨PACKET_COORDINATOR_CLIENT_REGISTER,
         [WireAtom.u8 (NETWORK_COORDINATOR_VERSION % 2 ^ 8),
          WireAtom.u8 (SERVER_GAME_TYPE_PUBLIC % 2 ^ 8),
          WireAtom.u16 (server_port % 2 ^ 16),
          WireAtom.str revision]⟩]) ∧
    (Register s server_port revision).1.join_key = "" ∧
    (Register s server_port revision).1.connection_type =
      CONNECTION_TYPE_UNKNOWN := by
  refine ⟨⟨(Connect { s with join_key := "", connection_type := CONNECTION_TYPE_UNKNOWN }).2, rfl⟩, ?_, ?_⟩
  · simp only [Register, Connect]
    split
    · rfl
    · rfl
  · simp only [Register, Connect]
    split
    · rfl
    · rfl

/-! Claim C10 — duplicate ConnectToServer for a pending join key. -/

/-- C10: calling `ConnectToServer` while the same join key is still
pending in the pre-token table fails the second connecter immediately
with an invalid-socket result, sends nothing, and leaves the state — in
particular the first attempt's table entry — unchanged. -/
theorem C10_duplicate_join (s : CoordState) (join_key : String)
    (connecter c0 : Nat)
    (hpend : alookup s.connecter_pre join_key = some c0) :
    ConnectToServer s join_key connecter = (s, [Effect.setResult connecter none]) ∧
    (∀ p, Effect.sendPacket p ∉ (ConnectToServer s join_key connecter).2) := by
  have heq : ConnectToServer s join_key connecter =
      (s, [Effect.setResult connecter none]) := by
    simp [ConnectToServer, hpend]
  refine ⟨heq, ?_⟩
  intro p hp
  rw [heq] at hp
  simp at hp

/-- C10 witness: the duplicate join attempt on a concrete state with join
key "ABCD1234" already pending. -/
theorem C10_duplicate_join_witness :
    ConnectToServer
        { sockValid := true, connecting := false, join_key := "",
          connection_type := 0, connecter_pre := [("ABCD1234", 7)],
          connecter := [], stun_handlers := [] } "ABCD1234" 8 =
      ({ sockValid := true, connecting := false, join_key := "",
         connection_type := 0, connecter_pre := [("ABCD1234", 7)],
         connecter := [], stun_handlers := [] },
       [Effect.setResult 8 none]) := by
  have h := C10_duplicate_join
    { sockValid := true, connecting := false, join_key := "",
      connection_type := 0, connecter_pre := [("ABCD1234", 7)],
      connecter := [], stun_handlers := [] } "ABCD1234" 8 7 (by decide)
  exact h.1

/-! Claim C7 — round-trip of the game-info serializer and deserializer. -/

/-- What one GRF entry looks like after a serialize/deserialize round
trip: the id narrowed to 32 bits, the MD5 read back as exactly 16 bytes,
the name truncated at the receive buffer, and the `GCF_STATIC` flag of a
freshly received config clear. -/
def grfWireNormalize (g : Nat × List Nat × String × Bool) :
    Nat × List Nat × String × Bool :=
  (grfId g % 2 ^ 32,
   (List.range 16).map (fun j => (grfMd5 g).getD j 0 % 2 ^ 8),
   (grfName g).take (NETWORK_GRF_NAME_LENGTH - 1),
   false)

theorem recvBytes_map_u8 (bs : List Nat) (n : Nat) (hn : n = bs.length)
    (rest : List WireAtom) :
    recvBytes n (bs.map WireAtom.u8 ++ rest) = some (bs, rest) := by
  subst hn
  induction bs with
  | nil => rfl
  | cons b bs ih => simp [recvBytes, ih]

theorem ReceiveGRFIdentifier_send (g : Nat × List Nat × String × Bool)
    (rest : List WireAtom) :
    ReceiveGRFIdentifier (SendGRFIdentifier g ++ rest) =
      some (grfWireNormalize g, rest) := by
  have hmm : (List.range 16).map (fun j => WireAtom.u8 ((grfMd5 g).getD j 0 % 2 ^ 8)) =
      ((List.range 16).map (fun j => (grfMd5 g).getD j 0 % 2 ^ 8)).map WireAtom.u8 := by
    simp [List.map_map, Function.comp]
  simp only [SendGRFIdentifier, grfWireNormalize, ReceiveGRFIdentifier,
    List.cons_append, recvU32, List.append_assoc, List.singleton_append,
    List.nil_append, hmm]
  rw [recvBytes_map_u8 ((List.range 16).map fun j => (grfMd5 g).getD j 0 % 2 ^ 8)
    16 (by simp) (WireAtom.str (grfName g) :: rest)]
  simp [recvString]

theorem receiveGRFList_send (grfs : List (Nat × List Nat × String × Bool))
    (rest : List WireAtom) :
    receiveGRFList grfs.length ((grfs.map SendGRFIdentifier).flatten ++ rest) =
      some (grfs.map grfWireNormalize, rest) := by
  induction grfs with
  | nil => rfl
  | cons g gs ih =>
    simp only [List.map_cons, List.flatten_cons, List.length_cons,
      List.append_assoc, receiveGRFList, ReceiveGRFIdentifier_send, ih]

theorem range_map_getD (l : List Nat) (n m : Nat) (hlen : l.length = n)
    (hb : ∀ b ∈ l, b < m) :
    (List.range n).map (fun j => l.getD j 0 % m) = l := by
  subst hlen
  apply List.ext_getElem
  · simp
  · intro i h1 h2
    simp only [List.getElem_map, List.getElem_range]
    rw [List.getD_eq_getElem l 0 h2]
    exact Nat.mod_eq_of_lt (hb _ (List.getElem_mem h2))

/-- C7 as amended: serializing a game-info value with
`SendNetworkGameInfo` and deserializing it with `ReceiveNetworkGameInfo`
yields field-for-field equality for the fixed-width wire fields provided
they are within their machine-type and documented ranges (dates within
`[0, MAX_DATE]`, `map_set` a valid landscape, counters one byte, map
dimensions two bytes), string fields equal up to truncation at the fixed
buffer lengths, GRF identifiers preserved for in-range entries, and the
fields the deserializer recomputes (`server_lang`, the compatibility
flags) reset rather than preserved. -/
theorem C7_roundtrip (info info0 : NetworkGameInfo)
    (hgrflen : (info.grfconfig.filter fun g => !grfStatic g).length < 2 ^ 8)
    (hgd : info.game_date ≤ MAX_DATE)
    (hsd : info.start_date ≤ MAX_DATE)
    (hcm : info.companies_max < 2 ^ 8) (hco : info.companies_on < 2 ^ 8)
    (hlm : info.clients_max < 2 ^ 8) (hlo : info.clients_on < 2 ^ 8)
    (hsm : info.spectators_max < 2 ^ 8) (hso : info.spectators_on < 2 ^ 8)
    (hmw : info.map_width < 2 ^ 16) (hmh : info.map_height < 2 ^ 16)
    (hms : info.map_set < NETWORK_NUM_LANDSCAPES)
    (hgrfid : ∀ g ∈ info.grfconfig.filter (fun g => !grfStatic g),
      grfId g < 2 ^ 32)
    (hmd5 : ∀ g ∈ info.grfconfig.filter (fun g => !grfStatic g),
      (grfMd5 g).length = 16 ∧ ∀ b ∈ grfMd5 g, b < 2 ^ 8) :
    ReceiveNetworkGameInfo (SendNetworkGameInfo info) info0 =
      some ({ info0 with
        game_info_version := NETWORK_GAME_INFO_VERSION
        join_key := info.join_key.take (NETWORK_JOIN_KEY_LENGTH - 1)
        grfconfig :=
          (info.grfconfig.filter fun g => !grfStatic g).map grfWireNormalize
        game_date := info.game_date
        start_date := info.start_date
        companies_max := info.companies_max
        companies_on := info.companies_on
        clients_max := info.clients_max
        clients_on := info.clients_on
        spectators_max := info.spectators_max
        spectators_on := info.spectators_on
        server_name := info.server_name.take (NETWORK_NAME_LENGTH - 1)
        server_revision :=
          info.server_revision.take (NETWORK_REVISION_LENGTH - 1)
        use_password := info.use_password
        dedicated := info.dedicated
        map_width := info.map_width
        map_height := info.map_height
        map_set := info.map_set
        version_compatible := false
        compatible := false
        server_lang := 0 }, []) ∧
    ((info.grfconfig.filter fun g => !grfStatic g).map grfWireNormalize).map
        (fun g => (grfId g, grfMd5 g)) =
      (info.grfconfig.filter fun g => !grfStatic g).map
        (fun g => (grfId g, grfMd5 g)) := by
  have hMAX : MAX_DATE < 2 ^ 32 := by norm_num [MAX_DATE]
  have hgd32 : info.game_date % 2 ^ 32 = info.game_date :=
    Nat.mod_eq_of_lt (lt_of_le_of_lt hgd hMAX)
  have hsd32 : info.start_date % 2 ^ 32 = info.start_date :=
    Nat.mod_eq_of_lt (lt_of_le_of_lt hsd hMAX)
  have hms4 : info.map_set < 4 := hms
  constructor
  · simp only [SendNetworkGameInfo, ReceiveNetworkGameInfo, recvU8, recvU16,
      recvU32, recvBool, recvString]
    rw [Nat.mod_eq_of_lt hgrflen]
    rw [show (NETWORK_GAME_INFO_VERSION % 2 ^ 8) = NETWORK_GAME_INFO_VERSION
      from rfl]
    simp only [ne_eq, not_true_eq_false, if_false, receiveGRFList_send]
    simp only [clampDate, hgd32, hsd32,
      Nat.min_eq_left hgd, Nat.min_eq_left hsd,
      Nat.mod_eq_of_lt hcm, Nat.mod_eq_of_lt hco, Nat.mod_eq_of_lt hlm,
      Nat.mod_eq_of_lt hlo, Nat.mod_eq_of_lt hsm, Nat.mod_eq_of_lt hso,
      Nat.mod_eq_of_lt hmw, Nat.mod_eq_of_lt hmh,
      Nat.mod_eq_of_lt (show info.map_set < 2 ^ 8 by omega)]
    rw [if_neg (show ¬ NETWORK_NUM_LANDSCAPES ≤ info.map_set by
      simp only [NETWORK_NUM_LANDSCAPES]; omega)]
  · rw [List.map_map]
    apply List.map_congr_left
    intro g hg
    have h1 := hgrfid g hg
    have h2 := hmd5 g hg
    simp only [Function.comp, grfWireNormalize, grfId, grfMd5]
    exact Prod.ext (Nat.mod_eq_of_lt h1) (range_map_getD _ _ _ h2.1 h2.2)

/-- A game-info value whose `map_set` carries the out-of-range landscape
value `NETWORK_NUM_LANDSCAPES` and whose `server_lang` is nonzero. -/
def c7CexInfo : NetworkGameInfo :=
  { emptyGameInfo with map_set := NETWORK_NUM_LANDSCAPES, server_lang := 7 }

/-- C7 counterexample: the round trip is not field-for-field the identity
on fixed-width fields — an out-of-range `map_set` comes back as 0 and a
nonzero `server_lang` comes back as 0 (it is not on the wire at all). -/
theorem C7_roundtrip_cex :
    (ReceiveNetworkGameInfo (SendNetworkGameInfo c7CexInfo) emptyGameInfo).map
        (fun r => (r.1.map_set, r.1.server_lang)) = some (0, 0) ∧
    c7CexInfo.map_set = NETWORK_NUM_LANDSCAPES ∧
    c7CexInfo.server_lang = 7 := ⟨rfl, rfl, rfl⟩

/-- An in-range game-info value with one non-static GRF, used to witness
the round-trip theorem. -/
def c7WitnessInfo : NetworkGameInfo :=
  { join_key := "JK1", clients_on := 3,
    grfconfig := [(4276996, [0, 1, 2, 3, 4, 5, 6, 7, 8, 9, 10, 11, 12, 13, 14, 15],
      "some grf", false)],
    start_date := 700100, game_date := 700465, map_width := 256,
    map_height := 512, server_name := "my server",
    server_revision := "1.11.0", dedicated := true, version_compatible := true,
    compatible := true, use_password := true, game_info_version := 0,
    server_lang := 22, clients_max := 25, companies_on := 2,
    companies_max := 15, spectators_on := 1, spectators_max := 10,
    map_set := 1 }

set_option maxRecDepth 4000 in
/-- C7 witness: the round trip evaluated on the concrete in-range value. -/
theorem C7_roundtrip_witness :
    ReceiveNetworkGameInfo (SendNetworkGameInfo c7WitnessInfo) emptyGameInfo =
      some ({ emptyGameInfo with
        game_info_version := NETWORK_GAME_INFO_VERSION
        join_key := "JK1"
        grfconfig := [(4276996, [0, 1, 2, 3, 4, 5, 6, 7, 8, 9, 10, 11, 12, 13, 14, 15],
          "some grf", false)]
        game_date := 700465
        start_date := 700100
        companies_max := 15
        companies_on := 2
        clients_max := 25
        clients_on := 3
        spectators_max := 10
        spectators_on := 1
        server_name := "my server"
        server_revision := "1.11.0"
        use_password := true
        dedicated := true
        map_width := 256
        map_height := 512
        map_set := 1
        version_compatible := false
        compatible := false
        server_lang := 0 }, []) := by
  have h := C7_roundtrip c7WitnessInfo emptyGameInfo (by decide) (by decide)
    (by decide) (by decide) (by decide) (by decide) (by decide) (by decide)
    (by decide) (by decide) (by decide) (by decide) (by decide) (by decide)
  exact h.1

/-! Claim C9 — the LISTING server count is truncated to 8 bits. -/

/-- One entry of the global `_network_game_list` (network_gamelist.cpp):
the server's address key, whether it was added manually, the game-list
version at which it was last refreshed, whether it is online, and its
game info. -/
structure GameItem where
  address : String
  manually : Bool
  version : Nat
  online : Bool
  info : NetworkGameInfo
  deriving DecidableEq, Repr

/-- The game-list globals `_network_game_list` and
`_network_game_list_version`. -/
structure GameListState where
  items : List GameItem
  version : Nat
  deriving DecidableEq, Repr

/-- Embedding of `NetworkGameListRemoveExpired` (network_gamelist.cpp):
drop every item that was not added manually and whose version is older
than the current game-list version. -/
def NetworkGameListRemoveExpired (st : GameListState) : GameListState :=
  { st with
      items := st.items.filter fun it => it.manually || st.version ≤ it.version }

/-- The body of the LISTING loop (network_coordinator.cpp):
`NetworkGameListAddItem` on the "+"-prefixed join key — the empty-address
check of `NetworkGameListAddItem` concerns only direct IP addresses — then
overwrite the item's info, mark it online and stamp it with the current
game-list version.  Addresses in the list are unique, as in the source. -/
def listingAddServer (st : GameListState) (ngi : NetworkGameInfo) :
    GameListState :=
  let key := "+" ++ ngi.join_key
  if st.items.any fun it => it.address = key then
    { st with
        items := st.items.map fun it =>
          if it.address = key then
            { it with info := ngi, online := true, version := st.version }
          else it }
  else
    { st with
        items := st.items ++
          [{ address := key, manually := false, version := st.version,
             online := true, info := ngi }] }

/-- Embedding of `Receive_SERVER_LISTING` (network_coordinator.cpp).  The
source stores the result of `Recv_uint16` in the `uint8` local `servers`,
so the loop count is the wire value reduced modulo `2 ^ 8`; a zero
`servers` ends the listing round and removes expired entries.  The
game-info records carried by the packet are passed in already
deserialized; `CheckGameCompatibility` and the window updates are external
collaborators.  Returns the new game-list state and the number of records
processed. -/
def Receive_SERVER_LISTING (st : GameListState) (count : Nat)
    (records : List NetworkGameInfo) : GameListState × Nat :=
  let servers := count % 2 ^ 16 % 2 ^ 8
  if servers = 0 then (NetworkGameListRemoveExpired st, 0)
  else ((records.take servers).foldl listingAddServer st, servers)

/-- C9: the number of records processed by a LISTING packet is the wire
u16 count reduced modulo 256: a nonzero residue processes exactly that
many records, and a count that is a multiple of 256 — including nonzero
ones — is treated as the zero-count terminator and removes the expired
servers. -/
theorem C9_listing_truncation (st : GameListState) (count : Nat)
    (records : List NetworkGameInfo) (hc : count < 2 ^ 16) :
    (Receive_SERVER_LISTING st count records).2 = count % 2 ^ 8 ∧
    (count % 2 ^ 8 ≠ 0 →
      Receive_SERVER_LISTING st count records =
        ((records.take (count % 2 ^ 8)).foldl listingAddServer st,
         count % 2 ^ 8)) ∧
    (count % 2 ^ 8 = 0 →
      Receive_SERVER_LISTING st count records =
        (NetworkGameListRemoveExpired st, 0)) := by
  have h16 : count % 2 ^ 16 = count := Nat.mod_eq_of_lt hc
  refine ⟨?_, ?_, ?_⟩
  · simp only [Receive_SERVER_LISTING, h16]
    split
    · rename_i h0
      simpa using h0.symm
    · rfl
  · intro h0
    simp only [Receive_SERVER_LISTING, h16]
    rw [if_neg h0]
  · intro h0
    simp only [Receive_SERVER_LISTING, h16]
    rw [if_pos h0]

/-- A game list holding one expired automatic entry and one manual entry,
with the version counter already advanced to 1. -/
def c9State : GameListState :=
  { items :=
      [{ address := "+OLDKEY", manually := false, version := 0, online := true,
         info := emptyGameInfo },
       { address := "192.0.2.1:3979", manually := true, version := 0,
         online := false, info := emptyGameInfo }],
    version := 1 }

/-- C9 witness: a LISTING packet with wire count 512 — a nonzero multiple
of 256 — processes zero records and acts as the terminator: the expired
automatic entry is removed while the manual one stays. -/
theorem C9_listing_truncation_witness :
    (Receive_SERVER_LISTING c9State 512 []).2 = 512 % 2 ^ 8 ∧
    Receive_SERVER_LISTING c9State 512 [] =
      ({ items :=
           [{ address := "192.0.2.1:3979", manually := true, version := 0,
              online := false, info := emptyGameInfo }],
         version := 1 }, 0) := by
  have h := C9_listing_truncation c9State 512 [] (by decide)
  refine ⟨h.1, ?_⟩
  rw [h.2.2 (by decide)]
  rfl

/-! Claim C8 — killed attempts never fire callbacks and are reaped only
once resolved. -/

/-- One `TCPConnecter` in the global `_tcp_connecters` registry
(tcp_connect.cpp): an identity used to state which attempt an event
belongs to, the `connected` and `aborted` atomic completion flags written
by the worker, the `killed` flag, and the socket the worker produced
(`none` models `INVALID_SOCKET`). -/
structure Conn where
  id : Nat
  connected : Bool
  aborted : Bool
  killed : Bool
  sock : Option Nat
  deriving DecidableEq, Repr

/-- The observable events of a `CheckCallbacks` scan: the `OnConnect` and
`OnFailure` callbacks and the silent `closesocket` of a reaped killed
attempt. -/
inductive ConnEvent where
  | onConnect (id : Nat) (sock : Option Nat)
  | onFailure (id : Nat)
  | socketClosed (id : Nat) (sock : Nat)
  deriving DecidableEq, Repr

/-- Embedding of `TCPConnecter::CheckCallbacks` (tcp_connect.cpp): walk
the registry in order; a resolved (`connected || aborted`) killed attempt
is removed and its socket, if any, closed without any callback; otherwise
a connected attempt fires `OnConnect` and an aborted one fires
`OnFailure`; unresolved attempts stay. -/
def CheckCallbacks : List Conn → List Conn × List ConnEvent
  | [] => ([], [])
  | c :: rest =>
    let r := CheckCallbacks rest
    if (c.connected || c.aborted) && c.killed then
      (r.1,
       (match c.sock with
        | some s => [ConnEvent.socketClosed c.id s]
        | none => []) ++ r.2)
    else if c.connected then
      (r.1, ConnEvent.onConnect c.id c.sock :: r.2)
    else if c.aborted then
      (r.1, ConnEvent.onFailure c.id :: r.2)
    else
      (c :: r.1, r.2)

/-- Embedding of `TCPConnecter::KillAll` (tcp_connect.cpp): mark every
registered attempt killed; nothing is reaped here. -/
def KillAll (l : List Conn) : List Conn :=
  l.map fun c => { c with killed := true }

/-- Embedding of `TCPConnecter::Connect` as observed through the registry
(tcp_connect.cpp): the worker of the attempt with the given id stores the
resulting socket and sets `aborted` on failure or `connected` on success;
no other field is touched. -/
def workerResolve (l : List Conn) (i : Nat) (res : Option Nat) : List Conn :=
  l.map fun c =>
    if c.id = i then
      match res with
      | none => { c with sock := none, aborted := true }
      | some s => { c with sock := some s, connected := true }
    else c

/-- The interleavings the registry sees: per-tick scans, `KillAll`, and
worker completions. -/
inductive RegStep where
  | tick
  | kill
  | resolve (i : Nat) (res : Option Nat)
  deriving DecidableEq, Repr

/-- Run a sequence of registry steps, accumulating the events of every
tick scan in order. -/
def regRun : List Conn → List RegStep → List Conn × List ConnEvent
  | l, [] => (l, [])
  | l, RegStep.tick :: steps =>
      let r := CheckCallbacks l
      let rr := regRun r.1 steps
      (rr.1, r.2 ++ rr.2)
  | l, RegStep.kill :: steps => regRun (KillAll l) steps
  | l, RegStep.resolve i res :: steps => regRun (workerResolve l i res) steps

theorem CheckCallbacks_fst (l : List Conn) :
    (CheckCallbacks l).1 = l.filter fun c => !c.connected && !c.aborted := by
  induction l with
  | nil => rfl
  | cons c rest ih =>
    cases hcc : c.connected <;> cases hca : c.aborted <;> cases hck : c.killed <;>
      simp [CheckCallbacks, List.filter, hcc, hca, hck, ih]

theorem CheckCallbacks_no_callback (l : List Conn) (i : Nat)
    (h : ∀ c ∈ l, c.id = i → c.killed = true) :
    (∀ s, ConnEvent.onConnect i s ∉ (CheckCallbacks l).2) ∧
    ConnEvent.onFailure i ∉ (CheckCallbacks l).2 := by
  induction l with
  | nil => simp [CheckCallbacks]
  | cons c rest ih =>
    have hr := ih fun c2 hc2 hid => h c2 (List.mem_cons_of_mem _ hc2) hid
    by_cases hid : c.id = i
    · have hk : c.killed = true := h c (List.mem_cons_self _ _) hid
      cases hs : c.sock <;> cases hcc : c.connected <;> cases hca : c.aborted <;>
        simp_all [CheckCallbacks]
    · cases hs : c.sock <;> cases hcc : c.connected <;> cases hca : c.aborted <;>
        cases hck : c.killed <;> simp_all [CheckCallbacks] <;>
        exact fun hh => hid hh.symm

theorem CheckCallbacks_killed_close (l : List Conn) (c : Conn) (hc : c ∈ l)
    (hk : c.killed = true) (hres : c.connected = true ∨ c.aborted = true)
    (s : Nat) (hs : c.sock = some s) :
    ConnEvent.socketClosed c.id s ∈ (CheckCallbacks l).2 := by
  induction l with
  | nil => cases hc
  | cons c0 rest ih =>
    rcases List.mem_cons.mp hc with heq | hmem
    · subst heq
      rcases hres with h1 | h1
      · simp [CheckCallbacks, h1, hk, hs]
      · simp [CheckCallbacks, h1, hk, hs]
    · have hr := ih hmem
      cases hs0 : c0.sock <;> cases hcc : c0.connected <;>
        cases hca : c0.aborted <;> cases hck : c0.killed <;>
        simp_all [CheckCallbacks]

theorem regRun_no_callback (steps : List RegStep) (l : List Conn) (i : Nat)
    (h : ∀ c ∈ l, c.id = i → c.killed = true) :
    (∀ s, ConnEvent.onConnect i s ∉ (regRun l steps).2) ∧
    ConnEvent.onFailure i ∉ (regRun l steps).2 := by
  induction steps generalizing l with
  | nil => simp [regRun]
  | cons step steps ih =>
    cases step with
    | tick =>
      have htick := CheckCallbacks_no_callback l i h
      have hnext : ∀ c ∈ (CheckCallbacks l).1, c.id = i → c.killed = true := by
        intro c hc hid
        rw [CheckCallbacks_fst] at hc
        exact h c (List.mem_of_mem_filter hc) hid
      have hr := ih (CheckCallbacks l).1 hnext
      constructor
      · intro s hmem
        simp only [regRun, List.mem_append] at hmem
        rcases hmem with hmem | hmem
        · exact htick.1 s hmem
        · exact hr.1 s hmem
      · intro hmem
        simp only [regRun, List.mem_append] at hmem
        rcases hmem with hmem | hmem
        · exact htick.2 hmem
        · exact hr.2 hmem
    | kill =>
      refine ih (KillAll l) ?_
      intro c hc _
      simp only [KillAll, List.mem_map] at hc
      obtain ⟨c0, _, hc0⟩ := hc
      rw [← hc0]
    | resolve j res =>
      refine ih (workerResolve l j res) ?_
      intro c hc hid
      simp only [workerResolve, List.mem_map] at hc
      obtain ⟨c0, hc0mem, hc0⟩ := hc
      have hcid : c.id = c0.id ∧ c.killed = c0.killed := by
        by_cases hj : c0.id = j
        · cases res <;> rw [if_pos hj] at hc0 <;> rw [← hc0] <;> exact ⟨rfl, rfl⟩
        · rw [if_neg hj] at hc0
          rw [← hc0]
          exact ⟨rfl, rfl⟩
      rw [hcid.2]
      exact h c0 hc0mem (hcid.1 ▸ hid)

/-- C8: (1) once every registry entry for an attempt id is marked killed,
no interleaving of tick scans, further `KillAll`s and worker completions
ever fires `OnConnect` or `OnFailure` for that id; (2) a killed but
unresolved attempt survives the per-tick scan — it is removed only after
its worker has set the `connected` or `aborted` flag; (3) when a killed
resolved attempt is reaped, its socket, if it has one, is closed. -/
theorem C8_killall_semantics (l : List Conn) (steps : List RegStep) (i : Nat)
    (hk : ∀ c ∈ l, c.id = i → c.killed = true) :
    ((∀ s, ConnEvent.onConnect i s ∉ (regRun l steps).2) ∧
      ConnEvent.onFailure i ∉ (regRun l steps).2) ∧
    (∀ c ∈ l, c.connected = false → c.aborted = false →
      c ∈ (CheckCallbacks l).1) ∧
    (∀ c ∈ l, c.killed = true → (c.connected = true ∨ c.aborted = true) →
      c ∉ (CheckCallbacks l).1 ∧
      ∀ s, c.sock = some s →
        ConnEvent.socketClosed c.id s ∈ (CheckCallbacks l).2) := by
  refine ⟨regRun_no_callback steps l i hk, ?_, ?_⟩
  · intro c hc hcc hca
    rw [CheckCallbacks_fst]
    exact List.mem_filter.mpr ⟨hc, by simp [hcc, hca]⟩
  · intro c hc hkc hres
    constructor
    · intro hmem
      rw [CheckCallbacks_fst] at hmem
      have := (List.mem_filter.mp hmem).2
      rcases hres with h1 | h1 <;> simp [h1] at this
    · intro s hs
      exact CheckCallbacks_killed_close l c hc hkc hres s hs

/-- C8 witness: a registry holding one killed resolved attempt with a
socket, one killed unresolved attempt and nothing else for id 1: one tick
closes the socket of the resolved one without any callback, and the
unresolved one survives the scan. -/
theorem C8_killall_semantics_witness :
    (regRun
        [{ id := 1, connected := true, aborted := false, killed := true,
           sock := some 33 },
         { id := 1, connected := false, aborted := false, killed := true,
           sock := none }]
        [RegStep.tick]).2 = [ConnEvent.socketClosed 1 33] ∧
    (∀ s, ConnEvent.onConnect 1 s ∉ (regRun
        [{ id := 1, connected := true, aborted := false, killed := true,
           sock := some 33 },
         { id := 1, connected := false, aborted := false, killed := true,
           sock := none }]
        [RegStep.tick]).2) ∧
    ({ id := 1, connected := false, aborted := false, killed := true,
       sock := none } : Conn) ∈
      (CheckCallbacks
        [{ id := 1, connected := true, aborted := false, killed := true,
           sock := some 33 },
         { id := 1, connected := false, aborted := false, killed := true,
           sock := none }]).1 := by
  have h := C8_killall_semantics
    [{ id := 1, connected := true, aborted := false, killed := true,
       sock := some 33 },
     { id := 1, connected := false, aborted := false, killed := true,
       sock := none }]
    [RegStep.tick] 1 (by decide)
  refine ⟨rfl, h.1.1, ?_⟩
  exact h.2.1 _ (by decide) rfl rfl

end OpenTTD
